import Mathlib

/-
  Verification of the templated artifact deployment engine of a Fabric
  CLI based Power BI CI/CD sample repository.

  The development shallowly embeds the two Python source files
  (scripts/utils.py and scripts/deploy-dev.py):

  * Python strings are modelled as `String` / `List Char`; the string
    primitives `str.strip` and `str.split("\n")` are translated to
    `pyStrip` and `splitNL`, and a negative index `[-1]` to `pyLast`.
  * `subprocess.run(["fab", "-c", command], capture_output=..., text=True)`
    is modelled by a `ProcResult` record; when output is not captured the
    `stdout` / `stderr` fields are `none` (Python `None`), exactly as the
    `subprocess` library behaves.
  * Filesystems are association lists from component paths
    (`List String`) to text contents (`String`).
  * The regular expression library is treated as an external collaborator:
    a substitution rule carries the observable behaviour of
    `re.search(file_filter, path)` (a Boolean on paths) and
    `re.subn(find, replace, text)` (a text transformer with a match count).
  * `json.load` applied to the `.platform` manifest, together with the
    subsequent key lookups, is abstracted into a `parse` function
    returning `Except`; a parse failure models the exception that
    `json.load` / a `KeyError` raises.
  * Fallible Python code is embedded in `Except String`; a `.error`
    value corresponds to an uncaught exception.
-/

namespace FabricCICD

/-! ### Python string primitives -/

/-- Whitespace characters stripped by Python's `str.strip()` (the ASCII
fragment that can occur in the modelled output streams). -/
def wsChar (c : Char) : Bool :=
  c == ' ' || c == '\t' || c == '\n' || c == '\r' || c == '\x0b' || c == '\x0c'

/-- Python `str.strip()` on a character list: drop whitespace from both ends. -/
def pyStrip (s : List Char) : List Char :=
  (((s.dropWhile wsChar).reverse).dropWhile wsChar).reverse

/-- Python `str.split("\n")`: split a character list at every newline.
The result is never empty; splitting the empty string yields one empty
segment, as in Python. -/
def splitNL : List Char → List (List Char)
  | [] => [[]]
  | c :: cs =>
    if c = '\n' then [] :: splitNL cs
    else
      match splitNL cs with
      | [] => [[c]]
      | l :: ls => (c :: l) :: ls

/-- Python's negative index `[-1]` on the (always non-empty) result of
`split`: the last element, with an unreachable default for `[]`. -/
def pyLast : List (List Char) → List Char
  | [] => []
  | [l] => l
  | _ :: l :: ls => pyLast (l :: ls)

/-- The capture convention of the gateway:
`result.stdout.strip().split("\n")[-1]` (utils.py line 73). -/
def captureLine (s : String) : String :=
  String.mk (pyLast (splitNL (pyStrip s.data)))

/-- Python truthiness of an optional string: `None` and `""` are falsy. -/
def pyTruthy : Option String → Bool
  | none => false
  | some s => s != ""

/-- How Python's `print` renders an optional string: `None` for absent. -/
def pyStr : Option String → String
  | none => "None"
  | some s => s

/-! ### Remote Command Gateway (utils.py, `run_fab_command`) -/

/-- The result record of `subprocess.run`: exit status plus the captured
streams, which are `None` when `capture_output` was false. -/
structure ProcResult where
  returncode : Int
  stdout : Option String
  stderr : Option String
deriving DecidableEq, Repr

/-- `subprocess.run(["fab", "-c", command], capture_output=cap, text=True)`
for a subprocess whose actual behaviour is exit status `rc`, standard
output `out` and standard error `err`: the streams are captured only
when `cap` is true, otherwise the result fields are `None`. -/
def subprocessRun (rc : Int) (out err : String) (cap : Bool) : ProcResult :=
  { returncode := rc
    stdout := if cap then some out else none
    stderr := if cap then some err else none }

/-- Observable outcome of one gateway call: the lines printed by the
failure-logging branch, and the returned value (`none` models the
implicit Python `None` return when output is not captured). -/
structure FabOutput where
  printed : List String
  output : Option String
deriving DecidableEq, Repr

/-- The Remote Command Gateway, `run_fab_command` (utils.py lines 42-75),
evaluated against a subprocess behaving as `(rc, out, err)`.  The body
mirrors the source: run the subprocess; if not `silently_continue` and
the exit status is positive or the captured stderr is truthy, print the
stderr and stdout fields; if `capture_output`, return the last segment of
the stripped standard output.  The `raise` in the source is commented
out, so the function has no error path; the `Except` result type keeps
the Python exception channel visible and is always `.ok`.
`include_secrets` is accepted but never read, as in the source. -/
def run_fab_command (rc : Int) (out err : String)
    (capture_output include_secrets silently_continue : Bool) :
    Except String FabOutput :=
  let result := subprocessRun rc out err capture_output
  let printed :=
    if silently_continue = false ∧ (0 < result.returncode ∨ pyTruthy result.stderr = true)
    then [pyStr result.stderr, pyStr result.stdout]
    else []
  let output :=
    if capture_output then some (captureLine (pyStr result.stdout)) else none
  .ok { printed := printed, output := output }

/-! ### Staging Manager (utils.py, `copy_to_staging`) -/

/-- A filesystem region: an association list from component paths to
text contents, in directory-walk order. -/
abbrev FS := List (List String × String)

/-- The staging location computed by `copy_to_staging`:
`os.path.join(current_folder, "_stg", os.path.basename(path))`, as a
component path relative to the script folder. -/
def stagingDir (base : String) : List String := ["_stg", base]

/-- `fnmatch` of an entry name against the glob `*.abf`: the name ends
with the four characters `.abf` (checked on the character list). -/
def matchesAbfGlob (name : String) : Bool :=
  name.data.reverse.take 4 == ['f', 'b', 'a', '.']

/-- Does some component of a relative path match the ignore glob
`*.abf` of `shutil.ignore_patterns("*.abf")`?  `copytree` consults the
ignore callback with each entry name at every level, so a matching
directory name prunes its whole subtree. -/
def ignoredAbf (p : List String) : Bool :=
  p.any matchesAbfGlob

/-- The staged copy of a source directory listing: every file whose path
has no `*.abf` component, contents unchanged. -/
def stagedContents (src : FS) : FS :=
  src.filter (fun e => !(ignoredAbf e.1))

/-- `copy_to_staging` (utils.py lines 304-333) acting on the script
folder's filesystem: compute the staging location from the base name,
recursively delete anything already there (`shutil.rmtree`, a no-op via
`os.path.exists` when nothing is there, which the filter models
uniformly), then `shutil.copytree` the source minus the `*.abf` ignore
pattern into it.  Returns the updated filesystem and the staging path. -/
def copy_to_staging (fs : FS) (base : String) (src : FS) : FS × List String :=
  let path_staging := stagingDir base
  let fs1 := fs.filter (fun e => !(path_staging.isPrefixOf e.1))
  (fs1 ++ (stagedContents src).map (fun e => (path_staging ++ e.1, e.2)), path_staging)

/-! ### Pattern Substitution Engine (utils.py, `deploy_item` lines 253-285) -/

/-- One entry of the `find_and_replace` dictionary, keyed by a
(file-filter regex, content regex) pair with a replacement value.  The
regex library is external, so the rule carries the observable behaviour
of `re.search(file_filter, file_path)` as `filterMatch` and of
`re.subn(find, replace, text)` as `subn` (new text and match count). -/
structure Rule where
  filterMatch : String → Bool
  subn : String → String × Nat

/-- Join a component path into the string handed to `re.search`
(`os.path.join(root, file)`). -/
def joinPath (p : List String) : String := String.intercalate "/" p

/-- The per-file inner loop of `deploy_item`'s find-and-replace pass:
fold the rules, in declaration order, over the text read from the file.
When a rule's file filter matches, the in-memory text is replaced by the
`re.subn` result; when the substitution count is positive the file is
also rewritten on disk.  Returns the final in-memory text, the final
on-disk content, and whether any rewrite happened. -/
def applyRulesToFile (rules : List Rule) (file_path : String) (text : String) :
    String × String × Bool :=
  rules.foldl
    (fun acc r =>
      if r.filterMatch file_path then
        let s := r.subn acc.1
        if 0 < s.2 then (s.1, s.1, true) else (s.1, acc.2.1, acc.2.2)
      else acc)
    (text, text, false)

/-- The whole find-and-replace pass of `deploy_item`: skipped entirely
when the dictionary is empty (`if find_and_replace:`), otherwise every
staged file is processed by `applyRulesToFile` against its full path
under the staging directory, and the staged tree keeps each file's final
on-disk content. -/
def apply_substitutions (rules : List Rule) (base : String) (staged : FS) : FS :=
  if rules.isEmpty then staged
  else staged.map
    (fun e => (e.1, (applyRulesToFile rules (joinPath (stagingDir base ++ e.1)) e.2).2.1))

/-! ### Manifest Resolver (utils.py, `deploy_item` lines 242-251) -/

/-- The two manifest fields read from the `.platform` sidecar:
`platform_data["metadata"]["displayName"]` and
`platform_data["metadata"]["type"]`. -/
structure PlatformMeta where
  displayName : String
  type : String
deriving DecidableEq, Repr

/-- Path of the manifest sidecar at the staging root. -/
def dotPlatform : List String := [".platform"]

/-- Read a file from a staged listing (`os.path.exists` + `open`/`read`):
the content of the first entry at that path, if any. -/
def lookupFile (files : FS) (p : List String) : Option String :=
  (files.find? (fun e => e.1 = p)).map (fun e => e.2)

/-- The identity-resolution fragment of `deploy_item`: if the staged
`.platform` file exists it is opened and parsed (`json.load`, modelled
by `parse`; a parse or key failure is an exception), and the name/type
that the caller left unspecified are filled from its metadata; without
the file, the caller's values pass through untouched.  Note the source
parses the manifest even when both values were supplied explicitly. -/
def resolveIdentity (staged : FS) (parse : String → Except String PlatformMeta)
    (item_type item_name : Option String) :
    Except String (Option String × Option String) :=
  match lookupFile staged dotPlatform with
  | some content =>
    match parse content with
    | .error e => .error e
    | .ok platform_data =>
      let item_name := if item_name.isNone then some platform_data.displayName else item_name
      let item_type := if item_type.isNone then some platform_data.type else item_type
      .ok (item_type, item_name)
  | none => .ok (item_type, item_name)

/-! ### Deployment engine (utils.py, `deploy_item`) -/

/-- The behaviour of one external `fab` invocation: exit status,
standard output, standard error. -/
structure ProcBeh where
  rc : Int
  out : String
  err : String
deriving DecidableEq, Repr

/-- The `import -f ... -i ...` command string built by `deploy_item`
(f-string rendering, so an unresolved name or type appears as the
literal text `None`). -/
def import_command (workspace_name nm tp base : String) : String :=
  "import -f /" ++ workspace_name ++ ".workspace/" ++ nm ++ "." ++ tp
    ++ " -i " ++ joinPath (stagingDir base)

/-- The `get ... -q id` command string built by `deploy_item`. -/
def get_command (workspace_name nm tp : String) : String :=
  "get /" ++ workspace_name ++ ".workspace/" ++ nm ++ "." ++ tp ++ " -q id"

/-- The staged tree after the optional `func_after_staging` hook has run
on the fresh staging copy. -/
def staging_after_hook (func_after_staging : Option (FS → FS)) (src : FS) : FS :=
  match func_after_staging with
  | some f => f (stagedContents src)
  | none => stagedContents src

/-- Observable outcome of one `deploy_item` call: the remote commands it
issued (in order), the returned identifier (Python `None` when
simulating), and the final content of the staged tree. -/
structure DeployResult where
  commands : List String
  itemId : Option String
  staged : FS
deriving DecidableEq, Repr

/-- `deploy_item` (utils.py lines 207-301) against a remote control
plane `g` mapping each command string to the subprocess behaviour it
produces.  Steps, exactly as the source orders them: stage the source
files (the filesystem effect of `copy_to_staging` is proved separately;
here the staged listing it returns is used), run the optional
`func_after_staging` hook, resolve identity from the `.platform`
manifest, run the find-and-replace pass, and then — unless `what_if` —
issue the `import` command followed by the `get ... -q id` command whose
captured output is returned.  With `what_if` set, no remote command runs
and the function returns `None`. -/
def deploy_item (g : String → ProcBeh) (parse : String → Except String PlatformMeta)
    (src : FS) (base workspace_name : String)
    (item_type item_name : Option String) (find_and_replace : List Rule)
    (what_if : Bool) (func_after_staging : Option (FS → FS)) :
    Except String DeployResult :=
  let staged1 := staging_after_hook func_after_staging src
  match resolveIdentity staged1 parse item_type item_name with
  | .error e => .error e
  | .ok (item_type, item_name) =>
    let staged2 := apply_substitutions find_and_replace base staged1
    if what_if = false then
      let cmd1 := import_command workspace_name (pyStr item_name) (pyStr item_type) base
      match run_fab_command (g cmd1).rc (g cmd1).out (g cmd1).err false false false with
      | .error e => .error e
      | .ok _ =>
        let cmd2 := get_command workspace_name (pyStr item_name) (pyStr item_type)
        match run_fab_command (g cmd2).rc (g cmd2).out (g cmd2).err true false false with
        | .error e => .error e
        | .ok fo =>
          .ok { commands := [cmd1, cmd2], itemId := fo.output, staged := staged2 }
    else
      .ok { commands := [], itemId := none, staged := staged2 }

/-! ### SQL endpoint readiness poll (deploy-dev.py lines 107-126) -/

/-- The lakehouse whose SQL endpoint the orchestrator polls. -/
def lakehouse_name : String := "LH_STORE_RAW"

/-- The polling `get` command issued on every attempt. -/
def sql_endpoint_command (workspace_name : String) : String :=
  "get /" ++ workspace_name ++ ".workspace/" ++ lakehouse_name
    ++ ".lakehouse -q properties.sqlEndpointProperties.connectionString"

/-- One polling attempt: the string assigned to `sql_endpoint` by
`run_fab_command(..., capture_output=True)` when the subprocess behaves
as `g i` on attempt `i`.  With output captured the gateway always
returns a string, so the fallback arms are unreachable. -/
def sqlAttempt (g : Nat → ProcBeh) (i : Nat) : String :=
  match run_fab_command (g i).rc (g i).out (g i).err true false false with
  | .ok fo => match fo.output with
    | some s => s
    | none => ""
  | .error _ => ""

/-- The `for attempt in range(3)` loop: `n` attempts remaining, `i` the
next attempt index, `acc` the current value of the `sql_endpoint`
variable (initially Python `None`).  Each iteration assigns the fetched
value and breaks when it is neither `None` nor empty; the 30-second
`time.sleep` between failed attempts has no observable effect in this
model. -/
def pollLoop (fetch : Nat → String) : Nat → Nat → Option String → Option String
  | 0, _, acc => acc
  | n + 1, i, _ =>
    let v := fetch i
    if v ≠ "" then some v else pollLoop fetch n (i + 1) (some v)

/-- The fatal resolution error raised after the loop. -/
def sqlErrMsg : String :=
  "Cannot resolve SQL endpoint for lakehouse " ++ lakehouse_name

/-- The whole readiness poll of deploy-dev.py: run the 3-attempt loop,
then raise the fatal error when the final value is `None`, empty, or the
literal string `"None"`; otherwise the value is used. -/
def sql_endpoint_poll (g : Nat → ProcBeh) : Except String String :=
  match pollLoop (sqlAttempt g) 3 0 none with
  | none => .error sqlErrMsg
  | some v => if v = "" ∨ v = "None" then .error sqlErrMsg else .ok v

/-! ### Claim-side reference definition (spec comparison only) -/

/-- What the specification says the capture convention returns: the last
non-empty line of standard output, trimmed of surrounding whitespace.
Stated from the spec's words, to be compared against the source
translation `captureLine`. -/
def claimedLastNonEmptyTrimmed (s : String) : Option String :=
  (((splitNL s.data).filter (fun l => !l.isEmpty)).getLast?).map
    (fun l => String.mk (pyStrip l))

end FabricCICD

deriving instance DecidableEq for Except

namespace FabricCICD

/-! ### Helper lemmas on the string primitives -/

theorem splitNL_ne_nil (s : List Char) : splitNL s ≠ [] := by
  cases s with
  | nil => simp [splitNL]
  | cons c cs =>
    by_cases h : c = '\n'
    · simp [splitNL, h]
    · simp only [splitNL, if_neg h]
      cases hs : splitNL cs <;> simp

theorem pyLast_cons_of_ne_nil (l : List Char) (ls : List (List Char)) (h : ls ≠ []) :
    pyLast (l :: ls) = pyLast ls := by
  cases ls with
  | nil => exact absurd rfl h
  | cons a as => rfl

theorem splitNL_of_not_mem (s : List Char) (h : '\n' ∉ s) : splitNL s = [s] := by
  induction s with
  | nil => rfl
  | cons c cs ih =>
    have hc : c ≠ '\n' := fun e => h (e ▸ List.mem_cons_self c cs)
    have hcs : '\n' ∉ cs := fun m => h (List.mem_cons_of_mem c m)
    simp [splitNL, if_neg hc, ih hcs]

theorem splitNL_of_mem (s : List Char) (h : '\n' ∈ s) :
    ∃ l ls, splitNL s = l :: ls ∧ ls ≠ [] := by
  induction s with
  | nil => cases h
  | cons c cs ih =>
    by_cases hc : c = '\n'
    · exact ⟨[], splitNL cs, by simp [splitNL, hc], splitNL_ne_nil cs⟩
    · have hm : '\n' ∈ cs := by
        rcases List.mem_cons.mp h with h1 | h1
        · exact absurd h1.symm hc
        · exact h1
      obtain ⟨l, ls, hsp, hne⟩ := ih hm
      exact ⟨c :: l, ls, by simp [splitNL, if_neg hc, hsp], hne⟩

theorem takeWhile_append_stop {α : Type} (p : α → Bool) (xs ys : List α) (a : α)
    (ha : a ∈ xs) (hpa : p a = false) :
    (xs ++ ys).takeWhile p = xs.takeWhile p := by
  induction xs with
  | nil => cases ha
  | cons x xs ih =>
    simp only [List.cons_append, List.takeWhile_cons]
    cases hx : p x with
    | false => rfl
    | true =>
      rcases List.mem_cons.mp ha with h1 | h1
      · rw [h1] at hpa; rw [hpa] at hx; cases hx
      · rw [ih h1]

/-- The last element of Python's `split("\n")` is the segment after the
final newline: the key characterisation of the capture convention. -/
theorem pyLast_splitNL (s : List Char) :
    pyLast (splitNL s) = (s.reverse.takeWhile (fun c => !(c == '\n'))).reverse := by
  induction s with
  | nil => rfl
  | cons c cs ih =>
    rw [List.reverse_cons]
    by_cases hc : c = '\n'
    · subst hc
      have h1 : splitNL ('\n' :: cs) = [] :: splitNL cs := by simp [splitNL]
      rw [h1, pyLast_cons_of_ne_nil _ _ (splitNL_ne_nil cs)]
      by_cases hm : '\n' ∈ cs
      · rw [takeWhile_append_stop _ _ _ '\n' (List.mem_reverse.mpr hm) (by decide)]
        exact ih
      · have hall : ∀ a ∈ cs.reverse, (fun c => !(c == '\n')) a = true := by
          intro a hma
          have : a ≠ '\n' := fun e => hm (e ▸ List.mem_reverse.mp hma)
          simpa using this
        rw [List.takeWhile_append_of_pos hall]
        have h2 : List.takeWhile (fun c => !(c == '\n')) ['\n'] = [] := by decide
        rw [h2, List.append_nil, List.reverse_reverse, ih,
          List.takeWhile_eq_self_iff.mpr hall, List.reverse_reverse]
    · by_cases hm : '\n' ∈ cs
      · obtain ⟨l, ls, hsp, hne⟩ := splitNL_of_mem cs hm
        have h1 : splitNL (c :: cs) = (c :: l) :: ls := by
          simp [splitNL, if_neg hc, hsp]
        rw [h1, pyLast_cons_of_ne_nil _ _ hne,
          takeWhile_append_stop _ _ _ '\n' (List.mem_reverse.mpr hm) (by decide),
          ← ih, hsp, pyLast_cons_of_ne_nil _ _ hne]
      · have h2 : splitNL cs = [cs] := splitNL_of_not_mem cs hm
        have h1 : splitNL (c :: cs) = [c :: cs] := by
          simp [splitNL, if_neg hc, h2]
        have hall : ∀ a ∈ cs.reverse ++ [c], (fun c => !(c == '\n')) a = true := by
          intro a hma
          rcases List.mem_append.mp hma with h3 | h3
          · have : a ≠ '\n' := fun e => hm (e ▸ List.mem_reverse.mp h3)
            simpa using this
          · have : a = c := by simpa using h3
            subst this
            simpa using hc
        rw [h1, List.takeWhile_eq_self_iff.mpr hall]
        simp [pyLast]

/-- The capture convention on an all-whitespace output is the empty
string: stripping removes everything and the last segment is empty. -/
theorem captureLine_of_all_ws (s : String) (h : s.data.all wsChar = true) :
    captureLine s = "" := by
  have h1 : s.data.dropWhile wsChar = [] :=
    List.dropWhile_eq_nil_iff.mpr (List.all_eq_true.mp h)
  simp [captureLine, pyStrip, h1, splitNL, pyLast]

/-! ### Claim C1 -/

/-- C1: for every command whose subprocess reports a positive exit
status or whose captured error stream is non-empty, the gateway called
with `silently_continue = False` prints the stderr and stdout fields of
the result (Python renders an uncaptured `None` stream as the text
`None`) and returns normally — the result is always `.ok`, since the
`raise` in the source is commented out; no exception is possible. -/
theorem gateway_logs_failure_and_returns (rc : Int) (out err : String)
    (cap incl : Bool)
    (h : 0 < rc ∨ pyTruthy (subprocessRun rc out err cap).stderr = true) :
    run_fab_command rc out err cap incl false =
      .ok { printed := [pyStr (subprocessRun rc out err cap).stderr,
                        pyStr (subprocessRun rc out err cap).stdout],
            output := if cap then some (captureLine out) else none } := by
  simp only [run_fab_command]
  rw [if_pos ⟨by trivial, h⟩]
  cases cap <;> simp [subprocessRun, pyStr]

/-- Witness for C1: a concrete failing call (exit status 1, stderr
`boom`) is logged and returns the trimmed last stdout segment. -/
theorem gateway_logs_failure_and_returns_witness :
    run_fab_command 1 "ok\ndone" "boom" true false false =
      .ok { printed := ["boom", "ok\ndone"], output := some "done" } := by
  have h := gateway_logs_failure_and_returns 1 "ok\ndone" "boom" true false
    (Or.inl (by decide))
  rw [h]
  decide

/-! ### Claim C2 -/

/-- C2, counterexample: with standard output `"log\n  42"` the claim
says the gateway returns the last non-empty line trimmed of surrounding
whitespace, i.e. `"42"`; the source computes
`stdout.strip().split("\n")[-1]`, which keeps the leading spaces and
returns `"  42"`. -/
theorem capture_output_counterexample :
    run_fab_command 0 "log\n  42" "" true false false =
      .ok { printed := [], output := some "  42" }
    ∧ claimedLastNonEmptyTrimmed "log\n  42" = some "42"
    ∧ ("  42" : String) ≠ "42" := by
  refine ⟨by decide, by decide, by decide⟩

/-- C2, amended: with `capture_output` the gateway returns the segment
of the whitespace-stripped standard output that follows its final
newline — the last non-blank line with trailing whitespace removed but
leading whitespace preserved — and does so even when preceded by other
log lines. -/
theorem capture_output_last_stripped_segment (rc : Int) (out err : String)
    (incl sil : Bool) :
    ∃ fo, run_fab_command rc out err true incl sil = .ok fo ∧
      fo.output =
        some (String.mk
          (((pyStrip out.data).reverse.takeWhile (fun c => !(c == '\n'))).reverse)) := by
  refine ⟨_, rfl, ?_⟩
  have hcap : captureLine out =
      String.mk (((pyStrip out.data).reverse.takeWhile (fun c => !(c == '\n'))).reverse) := by
    simp only [captureLine]
    rw [pyLast_splitNL]
  simp [run_fab_command, subprocessRun, pyStr, hcap]

/-! ### Claim C9 -/

/-- C9: a gateway call with `capture_output = True` always returns a
string, never `None`; when the standard output is empty or all
whitespace, that string is the empty string — the value the readiness
poll of deploy-dev.py compares against `""`. -/
theorem capture_output_always_string (rc : Int) (out err : String)
    (incl sil : Bool) :
    ∃ fo, run_fab_command rc out err true incl sil = .ok fo ∧
      fo.output = some (captureLine out) ∧
      (out.data.all wsChar = true → captureLine out = "") := by
  refine ⟨_, rfl, ?_, captureLine_of_all_ws out⟩
  simp [run_fab_command, subprocessRun, pyStr]

/-- Witness for C9: on a whitespace-only standard output the captured
return value is the empty string. -/
theorem capture_output_always_string_witness :
    (" \n ".data.all wsChar = true) ∧
    ∃ fo, run_fab_command 0 " \n " "" true false false = .ok fo ∧
      fo.output = some "" := by
  obtain ⟨fo, h1, h2, h3⟩ := capture_output_always_string 0 " \n " "" false false
  refine ⟨by decide, fo, h1, ?_⟩
  rw [h2, h3 (by decide)]

/-! ### Claim C4 -/

theorem isPrefixOf_append_self {α : Type} [BEq α] [LawfulBEq α] (l m : List α) :
    l.isPrefixOf (l ++ m) = true := by
  induction l with
  | nil => simp
  | cons a l ih => simp [List.isPrefixOf, ih]

/-- C4: staging a source directory twice in succession yields the same
filesystem as staging it once, and the staging area then holds exactly
the source files minus those matching the `*.abf` ignore pattern, with
no leftovers: any pre-existing content under the staging location is
recursively deleted before recreation. -/
theorem copy_to_staging_idempotent (fs : FS) (base : String) (src : FS) :
    (copy_to_staging (copy_to_staging fs base src).1 base src).1 =
      (copy_to_staging fs base src).1
    ∧ (copy_to_staging fs base src).1.filter
        (fun e => (stagingDir base).isPrefixOf e.1) =
      (stagedContents src).map (fun e => (stagingDir base ++ e.1, e.2)) := by
  have hpref : ∀ a ∈ (stagedContents src).map
      (fun e => (stagingDir base ++ e.1, e.2)),
      ((stagingDir base).isPrefixOf a.1) = true := by
    intro a ha
    obtain ⟨e, _, rfl⟩ := List.mem_map.mp ha
    exact isPrefixOf_append_self _ _
  constructor
  · simp only [copy_to_staging, List.filter_append]
    have h1 : List.filter (fun e => !((stagingDir base).isPrefixOf e.1))
        (List.filter (fun e => !((stagingDir base).isPrefixOf e.1)) fs) =
        List.filter (fun e => !((stagingDir base).isPrefixOf e.1)) fs := by
      rw [List.filter_filter]
      simp [Bool.and_self]
    have h2 : List.filter (fun e => !((stagingDir base).isPrefixOf e.1))
        ((stagedContents src).map (fun e => (stagingDir base ++ e.1, e.2))) = [] := by
      rw [List.filter_eq_nil_iff]
      intro a ha
      simp [hpref a ha]
    rw [h1, h2, List.append_nil]
  · simp only [copy_to_staging, List.filter_append]
    have h3 : List.filter (fun e => (stagingDir base).isPrefixOf e.1)
        (List.filter (fun e => !((stagingDir base).isPrefixOf e.1)) fs) = [] := by
      rw [List.filter_eq_nil_iff]
      intro a ha
      have h5 := (List.mem_filter.mp ha).2
      simp only [Bool.not_eq_true'] at h5
      simp [h5]
    have h4 : List.filter (fun e => (stagingDir base).isPrefixOf e.1)
        ((stagedContents src).map (fun e => (stagingDir base ++ e.1, e.2))) =
        (stagedContents src).map (fun e => (stagingDir base ++ e.1, e.2)) :=
      List.filter_eq_self.mpr hpref
    rw [h3, h4, List.nil_append]

/-! ### Claim C7 -/

/-- C7: a staged file whose full path matches none of the file-filter
patterns of the rule set is untouched by the find-and-replace loop: its
in-memory text and on-disk content are byte-identical to the original
and no rewrite ever happens. -/
theorem unmatched_file_untouched (rules : List Rule) (file_path text : String)
    (h : ∀ r ∈ rules, r.filterMatch file_path = false) :
    applyRulesToFile rules file_path text = (text, text, false) := by
  induction rules with
  | nil => rfl
  | cons r rs ih =>
    have hr := h r (List.mem_cons_self r rs)
    have ih2 := ih (fun x hx => h x (List.mem_cons_of_mem _ hx))
    simp only [applyRulesToFile, List.foldl_cons, hr] at ih2 ⊢
    simpa using ih2

/-- Witness for C7: a rule whose file filter rejects the path leaves the
file exactly as it was. -/
theorem unmatched_file_untouched_witness :
    applyRulesToFile [⟨fun p => p == "a.json", fun t => (t ++ "!", 1)⟩]
      "b.json" "text" = ("text", "text", false) := by
  refine unmatched_file_untouched _ _ _ ?_
  intro r hr
  have : r = ⟨fun p => p == "a.json", fun t => (t ++ "!", 1)⟩ := by
    simpa using hr
  subst this
  decide

/-! ### Claim C8 -/

/-- C8, counterexample: even when both the item type and the item name
are supplied explicitly, the source still opens and parses the
`.platform` manifest when it exists, so a malformed manifest makes the
resolution raise instead of returning the supplied identity untouched —
the claim's "without touching the filesystem" fails. -/
theorem explicit_identity_counterexample :
    resolveIdentity [([".platform"], "garbage")] (fun _ => .error "bad json")
      (some "T") (some "N") = .error "bad json"
    ∧ (Except.error "bad json" :
        Except String (Option String × Option String)) ≠ .ok (some "T", some "N") := by
  refine ⟨by decide, by decide⟩

/-- C8, amended: when both the item type and the item name are supplied
by the caller the resolved identity equals exactly those values — a
manifest value never overrides them — although the manifest sidecar,
when present, is still opened and parsed, so the resolution only returns
normally when parsing succeeds (or no manifest exists). -/
theorem explicit_identity_preserved (staged : FS)
    (parse : String → Except String PlatformMeta) (t n : String)
    (h : ∀ c, lookupFile staged dotPlatform = some c → (parse c).isOk = true) :
    resolveIdentity staged parse (some t) (some n) = .ok (some t, some n) := by
  simp only [resolveIdentity]
  cases hl : lookupFile staged dotPlatform with
  | none => rfl
  | some c =>
    have h6 := h c hl
    cases hp : parse c with
    | error e => rw [hp] at h6; cases h6
    | ok pd => simp [hp]

/-- Witness for C8: with a well-formed manifest present and explicit
identity supplied, the supplied values win. -/
theorem explicit_identity_preserved_witness :
    resolveIdentity [([".platform"], "meta")]
      (fun _ => .ok ⟨"DP_Test", "DataPipeline"⟩) (some "T") (some "N") =
      .ok (some "T", some "N") :=
  explicit_identity_preserved [([".platform"], "meta")]
    (fun _ => .ok ⟨"DP_Test", "DataPipeline"⟩) "T" "N" (fun c _ => rfl)

/-! ### Claim C3 -/

/-- C3, counterexample: a deployment of a staged directory with no
`.platform` manifest and no explicit name/type does not fail — it
proceeds, issuing the import and fetch commands with the literal text
`None` standing in for the unresolved identity, and returns an
identifier. -/
theorem missing_manifest_counterexample :
    deploy_item (fun _ => ⟨0, "id123", ""⟩) (fun _ => .error "unused")
      [(["a.txt"], "hello")] "X" "ws" none none [] false none =
      .ok { commands := ["import -f /ws.workspace/None.None -i _stg/X",
                         "get /ws.workspace/None.None -q id"],
            itemId := some "id123",
            staged := [(["a.txt"], "hello")] } := by
  decide

/-- C3, amended: when the caller leaves the item name and type
unspecified and the staged directory has no `.platform` manifest,
`deploy_item` does not raise a hard error: it proceeds with both values
unresolved (`None`), issues the import and fetch-identifier commands
with the literal text `None` in the item path, and returns whatever
identifier the fetch yields. -/
theorem missing_manifest_proceeds_with_none
    (g : String → ProcBeh) (parse : String → Except String PlatformMeta)
    (src : FS) (base workspace_name : String) (rules : List Rule)
    (fas : Option (FS → FS))
    (h : lookupFile (staging_after_hook fas src) dotPlatform = none) :
    ∃ dr, deploy_item g parse src base workspace_name none none rules false fas =
        .ok dr
      ∧ dr.commands = [import_command workspace_name "None" "None" base,
                       get_command workspace_name "None" "None"]
      ∧ dr.itemId.isSome = true := by
  simp only [deploy_item, resolveIdentity, h, run_fab_command, pyStr]
  exact ⟨_, rfl, rfl, rfl⟩

/-- Witness for C3 (amended): a concrete manifest-less deployment
proceeds and issues its commands with `None` in the item path. -/
theorem missing_manifest_proceeds_with_none_witness :
    ∃ dr, deploy_item (fun _ => ⟨0, "id9", ""⟩) (fun _ => .error "unused")
        [(["f.json"], "c")] "B" "w" none none [] false none = .ok dr
      ∧ dr.commands = [import_command "w" "None" "None" "B",
                       get_command "w" "None" "None"]
      ∧ dr.itemId.isSome = true :=
  missing_manifest_proceeds_with_none _ _ _ _ _ _ _ (by decide)

/-! ### Claim C6 -/

/-- C6: a `what_if` deployment performs staging and the whole
find-and-replace pass on the staged files but issues no remote command —
neither the import nor the fetch-identifier call — and returns no
identifier (`None`). -/
theorem what_if_skips_remote_commands
    (g : String → ProcBeh) (parse : String → Except String PlatformMeta)
    (src : FS) (base workspace_name : String)
    (itt itn : Option String) (rules : List Rule) (fas : Option (FS → FS))
    (h : (resolveIdentity (staging_after_hook fas src) parse itt itn).isOk = true) :
    deploy_item g parse src base workspace_name itt itn rules true fas =
      .ok { commands := [], itemId := none,
            staged := apply_substitutions rules base (staging_after_hook fas src) } := by
  simp only [deploy_item]
  cases hr : resolveIdentity (staging_after_hook fas src) parse itt itn with
  | error e => rw [hr] at h; cases h
  | ok tn => cases tn; simp

/-- Witness for C6: a concrete simulated deployment applies the rules to
the staged files, issues nothing, returns `None`. -/
theorem what_if_skips_remote_commands_witness :
    deploy_item (fun _ => ⟨0, "id", ""⟩) (fun _ => .ok ⟨"DP_Test", "DataPipeline"⟩)
      [([".platform"], "m"), (["a.txt"], "x")] "B" "w" none none
      [⟨fun p => p == "_stg/B/a.txt", fun _ => ("y", 1)⟩] true none =
      .ok { commands := [], itemId := none,
            staged := [([".platform"], "m"), (["a.txt"], "y")] } := by
  have h := what_if_skips_remote_commands (fun _ => ⟨0, "id", ""⟩)
    (fun _ => .ok ⟨"DP_Test", "DataPipeline"⟩)
    [([".platform"], "m"), (["a.txt"], "x")] "B" "w" none none
    [⟨fun p => p == "_stg/B/a.txt", fun _ => ("y", 1)⟩] none (by decide)
  rw [h]
  decide

/-! ### Claim C5 -/

/-- C5, counterexample: a poll whose first attempt returns the non-empty
string `"None"` stops polling but does not use that value — the run
raises the fatal resolution error instead, because the final check also
rejects the literal text `None` that the control-plane tool prints for a
null property. -/
theorem sql_poll_none_counterexample :
    sql_endpoint_poll (fun _ => ⟨0, "None", ""⟩) = .error sqlErrMsg
    ∧ sqlAttempt (fun _ => ⟨0, "None", ""⟩) 0 = "None"
    ∧ ("None" : String) ≠ ""
    ∧ sql_endpoint_poll (fun _ => ⟨0, "None", ""⟩) ≠ .ok "None" := by
  refine ⟨by decide, by decide, by decide, by decide⟩

/-- C5, amended: the readiness poll fetches the endpoint up to 3 times;
the first attempt returning a non-empty string stops the poll, and that
value is used unless it is the literal string `"None"`, which — like
exhausting all 3 attempts on empty values — raises the fatal resolution
error. -/
theorem sql_poll_first_nonempty (g : Nat → ProcBeh) :
    ((∀ j, j < 3 → sqlAttempt g j = "") → sql_endpoint_poll g = .error sqlErrMsg)
    ∧ (∀ k, k < 3 → sqlAttempt g k ≠ "" → (∀ j, j < k → sqlAttempt g j = "") →
        sql_endpoint_poll g =
          if sqlAttempt g k = "None" then .error sqlErrMsg
          else .ok (sqlAttempt g k)) := by
  constructor
  · intro h
    simp [sql_endpoint_poll, pollLoop, h 0 (by omega), h 1 (by omega), h 2 (by omega)]
  · intro k hk hne hmin
    interval_cases k
    · by_cases hn : sqlAttempt g 0 = "None" <;>
        simp [sql_endpoint_poll, pollLoop, hne, hn]
    · by_cases hn : sqlAttempt g 1 = "None" <;>
        simp [sql_endpoint_poll, pollLoop, hmin 0 (by omega), hne, hn]
    · by_cases hn : sqlAttempt g 2 = "None" <;>
        simp [sql_endpoint_poll, pollLoop, hmin 0 (by omega), hmin 1 (by omega), hne, hn]

/-- Witness for C5 (amended): empty on attempts 1-2 and `ep` on attempt
3 resolves to `ep`; empty on all three attempts raises the fatal
error. -/
theorem sql_poll_first_nonempty_witness :
    sql_endpoint_poll (fun i => ⟨0, if i = 2 then "ep" else "", ""⟩) = .ok "ep"
    ∧ sql_endpoint_poll (fun _ => ⟨0, "", ""⟩) = .error sqlErrMsg := by
  constructor
  · have h := (sql_poll_first_nonempty (fun i => ⟨0, if i = 2 then "ep" else "", ""⟩)).2
      2 (by omega) (by decide) (by intro j hj; interval_cases j <;> decide)
    rw [h]
    decide
  · exact (sql_poll_first_nonempty (fun _ => ⟨0, "", ""⟩)).1
      (by intro j hj; interval_cases j <;> decide)

/-! ### Claim C10 -/

/-- C10: the `include_secrets` flag has no effect whatsoever on the
gateway's observable behaviour — for every exit status, output streams
and setting of the other flags, flipping it yields the identical printed
diagnostics and return value.  The parameter is accepted and never read
by the source. -/
theorem include_secrets_no_effect (rc : Int) (out err : String)
    (cap sil : Bool) :
    run_fab_command rc out err cap true sil =
      run_fab_command rc out err cap false sil := rfl

end FabricCICD
